import Mathlib

/-!
Shallow embedding of the regime-switching core of
`src/generator.py` (Regime-Switching-Series-Generator).

Python floats are embedded as `ℚ` (exact arithmetic), dictionaries of
simulation parameters as a structure, and the global `random` stream as an
explicit stream `rng : ℕ → ℚ` of uniform draws together with a cursor `k`
threaded through the computation.  The unbounded recursion of
`get_new_model` is given explicit fuel; `none` models non-termination /
the stack blowing up.  The `assert` in the loop and the `AttributeError`
that `new_model.forecast` would raise on `None` are modelled by an
`Except` error type.
-/

namespace RegimeGen

/-- `class Switch(Enum)` of generator.py (lines 22-26). -/
inductive Switch
  | NONE
  | GRADUAL
  | ABRUPT
  | PREDEFINED
deriving DecidableEq, Repr

/-- The numeric `.value` of each enum member. -/
def Switch.value : Switch → ℤ
  | .NONE => -1
  | .GRADUAL => 0
  | .ABRUPT => 1
  | .PREDEFINED => 2

/-- The external `Model` objects (src/model.py is outside the blending core):
only the capabilities the core consumes are embedded — `id`, the fitted lags,
the historical input series and the one-step forecast capability. -/
structure Model where
  id : ℤ
  lags : ℕ × ℕ × ℕ
  inputTs : List ℚ
  forecastFn : List ℚ → ℚ

/-- `max(model.get_lags())`. -/
def Model.maxLag (m : Model) : ℕ := max m.lags.1 (max m.lags.2.1 m.lags.2.2)

/-- The slice of the YAML `tool_params` dictionary that the switching core
reads (and, through `start_switch`, writes: the key
`defined_drift_sharpness`). -/
structure Conf where
  periods : ℕ
  switching_probability : ℚ
  abrupt_drift_prob : ℚ
  gradual_drift_sharpness : ℚ
  abrupt_drift_sharpness : ℚ
  defined_drift_sharpness : Option ℚ := none
  min_model_len : ℤ
  w_func : String
  use_transition_map : Bool
  transition_map : List (ℕ × ℕ × ℤ)
deriving DecidableEq, Repr

/-- `update_weights` (lines 182-197): every sharpness below 0.1 (negative
values included) is replaced by 0.1, the increment is applied, and each
component is clamped independently. -/
def update_weights (w : ℚ × ℚ) (switch_sharpness : ℚ) : ℚ × ℚ :=
  let sharpness := if switch_sharpness < 1/10 then 1/10 else switch_sharpness
  let incr := sharpness
  let w1 := (w.1 - incr, w.2 + incr)
  (if w1.1 ≤ 0 then 0 else w1.1, if w1.2 ≥ 1 then 1 else w1.2)

/-- `reset_weights` (lines 200-206). -/
def reset_weights : ℚ × ℚ := (1, 0)

/-- Modelled from the spec: `gutils.get_sigmoid` (src/generator_utils.py is
missing from the sources).  Per the spec (§4.2) it is a fixed monotone lookup
table over 101 quantization buckets mapping a linear weight to a warped
value, strictly increasing in the index, with the pair `(warped, 1-warped)`
summing to 1.  A smoothstep kernel realises those words; indices past the
table (impossible for in-range weights) are clamped instead of raising
`IndexError`. -/
def get_sigmoid (i : ℕ) : ℚ :=
  let x : ℚ := ((min i 100 : ℕ) : ℚ) / 100
  3 * x ^ 2 - 2 * x ^ 3

/-- The sigmoid pair built at lines 329 and 347:
`(get_sigmoid()[int(w[0]*100)], 1 - get_sigmoid()[int(w[0]*100)])`. -/
def sig_pair (w0 : ℚ) : ℚ × ℚ :=
  (get_sigmoid (⌊w0 * 100⌋).toNat, 1 - get_sigmoid (⌊w0 * 100⌋).toNat)

/-- One event record of the `rc` log (`get_event_dict`, lines 209-216).
The string label `cur_switch` is split into the enum member and, for
PREDEFINED, the numeric suffix `int(100/(shp*100)) - 1`. -/
structure EventRec where
  n_row : ℕ
  new_switch : Switch
  cur_switch : Switch
  cur_switch_dur : Option ℤ
  weights : ℚ × ℚ
  current_model_id : ℤ
  new_model_id : ℤ
deriving DecidableEq, Repr

/-- `get_event_dict` (lines 209-216).  On the (unreachable in real runs)
path where the label of a PREDEFINED switch is requested while
`defined_drift_sharpness` is `None`, Python would raise a `TypeError`; the
embedding records no suffix. -/
def get_event_dict (counter : ℕ) (current_model : Model) (new_model : Option Model)
    (new_switch_type : Switch) (switch_type : Switch) (conf : Conf) (w : ℚ × ℚ) : EventRec :=
  { n_row := counter
    new_switch := new_switch_type
    cur_switch := switch_type
    cur_switch_dur :=
      if switch_type = Switch.PREDEFINED then
        match conf.defined_drift_sharpness with
        | some s => some (⌊(100 : ℚ) / (s * 100)⌋ - 1)
        | none => none
      else none
    weights := w
    current_model_id := current_model.id
    new_model_id := match new_model with
      | none => -1
      | some m => m.id }

/-- `random_switch` (lines 219-234): the second coin is only flipped when
the first one triggers a switch, exactly as in the source. -/
def random_switch (switch_prob : ℚ) (abrupt_prob : ℚ) (rng : ℕ → ℚ) (k : ℕ) :
    Switch × ℕ :=
  if rng k < switch_prob then
    if rng (k + 1) < abrupt_prob then (Switch.ABRUPT, k + 2)
    else (Switch.GRADUAL, k + 2)
  else (Switch.NONE, k + 1)

/-- The `for (it, length, to_mdl) in conf['transition_map']` loop inside
`start_switch` (lines 248-258), including the fall-through to lines 263-264
when the loop exhausts the map. -/
def start_switch_scan (counter : ℕ) (conf : Conf) :
    List (ℕ × ℕ × ℤ) → Switch × (ℚ × ℚ × Option ℚ) × Conf × Option ℤ
  | [] =>
    (Switch.NONE, (conf.gradual_drift_sharpness, conf.abrupt_drift_sharpness,
      conf.defined_drift_sharpness), conf, none)
  | (it, len, to_mdl) :: rest =>
    if counter = it then
      let d : ℚ := 100 / ((len : ℚ) + 1) / 100
      let conf' := { conf with defined_drift_sharpness := some d }
      (Switch.PREDEFINED,
        (conf'.gradual_drift_sharpness, conf'.abrupt_drift_sharpness, some d),
        conf', some to_mdl)
    else if counter < it then
      (Switch.NONE, (conf.gradual_drift_sharpness, conf.abrupt_drift_sharpness,
        conf.defined_drift_sharpness), conf, none)
    else start_switch_scan counter conf rest

/-- `start_switch` (lines 237-264).  Line 241 writes
`conf['defined_drift_sharpness'] = None` into the configuration dictionary
before anything else; the mutated dictionary is part of the return value
(the Python function mutates it in place and also returns it). -/
def start_switch (counter : ℕ) (conf0 : Conf) (rng : ℕ → ℚ) (k : ℕ) :
    Switch × (ℚ × ℚ × Option ℚ) × Conf × Option ℤ × ℕ :=
  let conf := { conf0 with defined_drift_sharpness := none }
  if conf.use_transition_map then
    let r := start_switch_scan counter conf conf.transition_map
    (r.1, r.2.1, r.2.2.1, r.2.2.2, k)
  else
    let r := random_switch conf.switching_probability conf.abrupt_drift_prob rng k
    (r.1, (conf.gradual_drift_sharpness, conf.abrupt_drift_sharpness,
      conf.defined_drift_sharpness), conf, none, r.2)

/-- `get_new_model` (lines 267-280): rejection sampling by unbounded
recursion.  `random.randrange(1, len(config)+1)` is modelled as
`1 + ⌊u * n⌋` on the next uniform draw `u`; the explicit fuel models the
recursion depth, `none` the case where the recursion never returns. -/
def get_new_model (fuel : ℕ) (current_id : ℤ) (n_files : ℕ) (rng : ℕ → ℚ) (k : ℕ) :
    Option (ℤ × ℕ) :=
  match fuel with
  | 0 => none
  | Nat.succ f =>
    let new_model_id : ℤ := 1 + ⌊rng k * (n_files : ℚ)⌋
    if current_id = new_model_id then get_new_model f current_id n_files rng (k + 1)
    else some (new_model_id, k + 1)

/-- Python tuple indexing `switch_shp[switch_type.value]` on the 3-tuple
`(gradual, abrupt, defined)`.  Index `-1` (kind NONE) wraps around to the
last element, as Python negative indexing does; a `None` entry fed to
`update_weights` would raise in Python and is defaulted here (both paths are
unreachable from the initial state). -/
def shp_get (shp : ℚ × ℚ × Option ℚ) : Switch → ℚ
  | .GRADUAL => shp.1
  | .ABRUPT => shp.2.1
  | .PREDEFINED => shp.2.2.getD 0
  | .NONE => shp.2.2.getD 0

/-- Failure modes of one loop iteration: the `assert` at line 334 firing,
`get_new_model` never returning, and `new_model.forecast` called on `None`. -/
inductive Err
  | assertFail
  | noFuel
  | noNewModel
deriving DecidableEq, Repr

/-- The mutable state of the `switching_process` loop: the local variables
of lines 295-308 plus the position `k` of the shared random stream. -/
structure BState where
  switch_type : Switch
  current_model : Model
  new_model : Option Model
  ts : List ℚ
  rc : List EventRec
  w : ℚ × ℚ
  sig_w : ℚ × ℚ
  state_counter : ℤ
  switch_shp : ℚ × ℚ × Option ℚ
  k : ℕ

/-- Lines 331-360 of the loop body: append the event record, check the
assertion, then either blend (and possibly complete the transition) or
append the plain forecast.  Factored out of `step_body` so the two phases
of one iteration can be reasoned about separately; the argument names are
the local variables of the source at line 331. -/
def step_tail (useSig : Bool) (it : ℕ) (old_model_forecast : ℚ) (conf1 : Conf)
    (new_switch_type switch_type1 : Switch) (switch_shp1 : ℚ × ℚ × Option ℚ)
    (new_model1 : Option Model) (w1 sig_w1 : ℚ × ℚ) (k2 : ℕ) (s : BState) :
    Except Err (Conf × BState) :=
  -- lines 332-334: append the event record, then assert the weight sum
  let ev := get_event_dict it s.current_model new_model1 new_switch_type switch_type1
    conf1 (if useSig then sig_w1 else w1)
  let rc1 := s.rc ++ [ev]
  if (if useSig then sig_w1.1 + sig_w1.2 else w1.1 + w1.2) = 1 then
    -- lines 337-360
    if 0 < w1.2 ∧ w1.2 < 1 then
      match new_model1 with
      | none => Except.error Err.noNewModel
      | some nm =>
        let new_model_forecast := nm.forecastFn
          (if it < nm.maxLag then nm.inputTs else s.ts)
        let blended := old_model_forecast * (if useSig then sig_w1.1 else w1.1) +
          new_model_forecast * (if useSig then sig_w1.2 else w1.2)
        let ts1 := s.ts ++ [blended]
        let w2 := update_weights w1 (shp_get switch_shp1 switch_type1)
        let sig_w2 := sig_pair w2.1
        if w2.2 = 1 then
          -- lines 350-356: the transition completes
          Except.ok (conf1,
            { switch_type := Switch.NONE, current_model := nm, new_model := none,
              ts := ts1, rc := rc1, w := reset_weights, sig_w := reset_weights,
              state_counter := 0, switch_shp := switch_shp1, k := k2 })
        else
          Except.ok (conf1,
            { switch_type := switch_type1, current_model := s.current_model,
              new_model := some nm, ts := ts1, rc := rc1, w := w2, sig_w := sig_w2,
              state_counter := s.state_counter, switch_shp := switch_shp1, k := k2 })
    else
      Except.ok (conf1,
        { switch_type := switch_type1, current_model := s.current_model,
          new_model := new_model1, ts := s.ts ++ [old_model_forecast], rc := rc1,
          w := w1, sig_w := sig_w1, state_counter := s.state_counter,
          switch_shp := switch_shp1, k := k2 })
  else Except.error Err.assertFail

/-- The body of one iteration of the `for it_counter in range(...)` loop
(lines 312-360), *before* the unconditional `state_counter = state_counter + 1`
of line 362.  `useSig` is `tool_params['w_func'] == 'sig'` computed at
line 297, `n_files` is `len(data_config["files"])`, `models` the fitted-model
dictionary (key `fitted_i` ↦ `models i`). -/
def step_body (useSig : Bool) (n_files : ℕ) (models : ℤ → Model) (fuel : ℕ)
    (rng : ℕ → ℚ) (it : ℕ) (conf : Conf) (s : BState) : Except Err (Conf × BState) :=
  -- line 313: forecast with the current model
  let old_model_forecast := s.current_model.forecastFn
    (if it < s.current_model.maxLag then s.current_model.inputTs else s.ts)
  -- lines 316-318: the guarded decision
  let dec : Switch × Option (ℚ × ℚ × Option ℚ) × Conf × Option ℤ × ℕ :=
    if (0 < s.w.2 ∧ s.w.2 < 1) ∨ s.state_counter ≤ conf.min_model_len then
      (Switch.NONE, none, conf, none, s.k)
    else
      let r := start_switch it conf rng s.k
      (r.1, some r.2.1, r.2.2.1, r.2.2.2.1, r.2.2.2.2)
  match dec with
  | (new_switch_type, new_switch_shp, conf1, switch_to, k1) =>
    -- lines 321-329: start of a switch
    if 0 ≤ new_switch_type.value then
      let shp := new_switch_shp.getD (0, 0, none)
      let sel : Except Err (ℤ × ℕ) :=
        match switch_to with
        | some t => Except.ok (t, k1)
        | none =>
          match get_new_model fuel s.current_model.id n_files rng k1 with
          | some r => Except.ok r
          | none => Except.error Err.noFuel
      match sel with
      | Except.error e => Except.error e
      | Except.ok (new_mdl_number, k2) =>
        let w' := update_weights reset_weights (shp_get shp new_switch_type)
        step_tail useSig it old_model_forecast conf1 new_switch_type new_switch_type
          shp (some (models new_mdl_number)) w' (sig_pair w'.1) k2 s
    else
      step_tail useSig it old_model_forecast conf1 new_switch_type s.switch_type
        s.switch_shp s.new_model s.w s.sig_w k1 s

/-- One full loop iteration: `step_body` followed by line 362,
`state_counter = state_counter + 1`. -/
def step (useSig : Bool) (n_files : ℕ) (models : ℤ → Model) (fuel : ℕ)
    (rng : ℕ → ℚ) (it : ℕ) (conf : Conf) (s : BState) : Except Err (Conf × BState) :=
  match step_body useSig n_files models fuel rng it conf s with
  | Except.ok (c, s') => Except.ok (c, { s' with state_counter := s'.state_counter + 1 })
  | Except.error e => Except.error e

/-- The initial values of the loop variables (lines 294-308). -/
def init_state (models : ℤ → Model) : BState :=
  { switch_type := Switch.NONE
    current_model := models 1
    new_model := none
    ts := []
    rc := []
    w := reset_weights
    sig_w := reset_weights
    state_counter := 0
    -- `switch_shp` has no initial value in the source; it is written before
    -- its first read (a blend can only be active after a switch started).
    switch_shp := (0, 0, none)
    k := 0 }

/-- `for it_counter in range(periods)` driven from iteration `it`,
`n` iterations remaining. -/
def run_aux (useSig : Bool) (n_files : ℕ) (models : ℤ → Model) (fuel : ℕ)
    (rng : ℕ → ℚ) : ℕ → ℕ → Conf → BState → Except Err (Conf × BState)
  | 0, _, conf, s => Except.ok (conf, s)
  | Nat.succ n, it, conf, s =>
    match step useSig n_files models fuel rng it conf s with
    | Except.ok (conf', s') => run_aux useSig n_files models fuel rng n (it + 1) conf' s'
    | Except.error e => Except.error e

/-- `switching_process` (lines 283-369).  The returned pair
`(ts, rc)` lives inside the final `BState`; the threaded configuration
dictionary is returned alongside so that its mutation is observable. -/
def switching_process (conf : Conf) (models : ℤ → Model) (n_files : ℕ) (fuel : ℕ)
    (rng : ℕ → ℚ) : Except Err (Conf × BState) :=
  run_aux (conf.w_func == "sig") n_files models fuel rng conf.periods 0 conf
    (init_state models)

/-! ## Basic facts about the weight schedule -/

/-- `update_weights` preserves the weight-sum invariant: if the input pair
sums to 1 then so does the output pair (the two clamps can only fire
together, and then the result is exactly `(0, 1)`). -/
theorem update_weights_sum (w : ℚ × ℚ) (sh : ℚ) (h : w.1 + w.2 = 1) :
    (update_weights w sh).1 + (update_weights w sh).2 = 1 := by
  unfold update_weights
  dsimp only
  split_ifs <;> linarith

/-- The sigmoid pair always sums to 1, whatever the lookup table holds. -/
theorem sig_pair_sum (w0 : ℚ) : (sig_pair w0).1 + (sig_pair w0).2 = 1 := by
  unfold sig_pair
  ring

/-- The new-model weight never decreases across one `update_weights` call
(starting from a pair whose second component is at most 1). -/
theorem update_weights_snd_mono (w : ℚ × ℚ) (sh : ℚ) (h : w.2 ≤ 1) :
    w.2 ≤ (update_weights w sh).2 := by
  unfold update_weights
  dsimp only
  split_ifs <;> linarith

/-- The new-model weight is clamped to at most 1. -/
theorem update_weights_snd_le_one (w : ℚ × ℚ) (sh : ℚ) :
    (update_weights w sh).2 ≤ 1 := by
  unfold update_weights
  dsimp only
  split_ifs <;> linarith

/-- Each `update_weights` call either lands exactly on 1 or advances the
new-model weight by the floored sharpness, which is at least 1/10. -/
theorem update_weights_snd_progress (w : ℚ × ℚ) (sh : ℚ) :
    (update_weights w sh).2 = 1 ∨ w.2 + 1/10 ≤ (update_weights w sh).2 := by
  unfold update_weights
  dsimp only
  split_ifs with h1 h2 h3
  · left; rfl
  · right; linarith
  · left; rfl
  · right; linarith

/-- Starting a switch with an effective sharpness below 1 leaves the
blend strictly in progress: `0 < w_new < 1` after
`update_weights(reset_weights(), sharpness)`. -/
theorem update_weights_reset_lt_one (sh : ℚ) (h : sh < 1) :
    0 < (update_weights reset_weights sh).2 ∧ (update_weights reset_weights sh).2 < 1 := by
  unfold update_weights reset_weights
  dsimp only
  split_ifs <;> constructor <;> linarith

/-! ## C6 — sharpness handling in `update_weights` -/

/-- C6 counterexample: a **negative** sharpness (−5) is *not* rejected as a
fatal configuration error — `update_weights` silently floors it to 0.1 and
returns an ordinary weight pair. -/
theorem c6_counterexample_negative_sharpness_floored :
    update_weights (1, 0) (-5) = (9/10, 1/10) := by
  unfold update_weights
  norm_num

/-- C6 (amended): every sharpness below 0.1 — negative and zero values
included — is silently floored to 0.1; `update_weights` behaves exactly as
if called with sharpness 0.1, and no error of any kind is signalled. -/
theorem c6_amended_all_small_sharpness_floored (w : ℚ × ℚ) (sh : ℚ) (h : sh < 1/10) :
    update_weights w sh = update_weights w (1/10) := by
  unfold update_weights
  dsimp only
  rw [if_pos h, if_neg (lt_irrefl (1/10 : ℚ))]

/-- Witness for `c6_amended_all_small_sharpness_floored` at sharpness −5. -/
theorem c6_amended_witness :
    update_weights (1, 0) (-5) = update_weights (1, 0) (1/10) :=
  c6_amended_all_small_sharpness_floored (1, 0) (-5) (by norm_num)

/-! ## C7 — model exclusion in probabilistic selection -/

/-- C7: in probabilistic mode, whenever `get_new_model` returns (the draws
come from a valid uniform stream and the pool has more than one model), the
returned id lies in `[1, n_files]` and differs from `current_id`. -/
theorem c7_model_exclusion (fuel : ℕ) :
    ∀ (current_id : ℤ) (n_files : ℕ) (rng : ℕ → ℚ) (k : ℕ) (r : ℤ) (k' : ℕ),
      1 < n_files → (∀ j, 0 ≤ rng j ∧ rng j < 1) →
      get_new_model fuel current_id n_files rng k = some (r, k') →
      1 ≤ r ∧ r ≤ (n_files : ℤ) ∧ r ≠ current_id := by
  induction fuel with
  | zero => intro current_id n_files rng k r k' _ _ h; exact absurd h (by simp [get_new_model])
  | succ f ih =>
    intro current_id n_files rng k r k' hn hv h
    unfold get_new_model at h
    dsimp only at h
    split at h
    · exact ih current_id n_files rng (k + 1) r k' hn hv h
    · rename_i hne
      have hr : r = 1 + ⌊rng k * (n_files : ℚ)⌋ := by
        injection h with h'
        injection h' with h1 h2
        exact h1.symm
      have h0 : (0 : ℤ) ≤ ⌊rng k * (n_files : ℚ)⌋ :=
        Int.floor_nonneg.mpr (mul_nonneg (hv k).1 (by positivity))
      have hlt : ⌊rng k * (n_files : ℚ)⌋ < (n_files : ℤ) := by
        apply Int.floor_lt.mpr
        push_cast
        have hn0 : (0 : ℚ) < (n_files : ℚ) := by positivity
        calc rng k * (n_files : ℚ) < 1 * (n_files : ℚ) := by
              exact mul_lt_mul_of_pos_right (hv k).2 hn0
          _ = (n_files : ℚ) := one_mul _
      refine ⟨by omega, by omega, ?_⟩
      rw [hr]
      intro hc
      exact hne hc.symm

/-- Witness for `c7_model_exclusion`: pool of 2 models, current id 1, the
draw 1/2 selects model 2. -/
theorem c7_model_exclusion_witness : 1 ≤ (2 : ℤ) ∧ (2 : ℤ) ≤ ((2 : ℕ) : ℤ) ∧ (2 : ℤ) ≠ 1 :=
  c7_model_exclusion 3 1 2 (fun _ => 1/2) 0 2 1 (by norm_num)
    (fun _ => by norm_num) (by norm_num [get_new_model])

/-! ## C8 — pool of size 1 under probabilistic switching -/

/-- With a single input file every draw of `random.randrange(1, 2)` yields 1,
so `get_new_model` with `current_id = 1` recurses forever: it returns `none`
for every amount of fuel. -/
theorem get_new_model_pool_one_diverges (rng : ℕ → ℚ) (hv : ∀ j, 0 ≤ rng j ∧ rng j < 1) :
    ∀ (fuel k : ℕ), get_new_model fuel 1 1 rng k = none := by
  intro fuel
  induction fuel with
  | zero => intro k; rfl
  | succ f ih =>
    intro k
    unfold get_new_model
    have hfl : ⌊rng k * ((1 : ℕ) : ℚ)⌋ = 0 := by
      rw [Nat.cast_one, mul_one]
      exact Int.floor_eq_zero_iff.mpr (Set.mem_Ico.mpr ⟨(hv k).1, (hv k).2⟩)
    simp [hfl, ih, (hv k).1, (hv k).2]


/-! ## Invariant preservation through one loop iteration -/

/-- The weight pair recorded by `get_event_dict` in `step_tail`. -/
theorem step_tail_invariant (u : Bool) (it : ℕ) (ofc : ℚ) (conf1 : Conf)
    (nst st1 : Switch) (shp1 : ℚ × ℚ × Option ℚ) (nm1 : Option Model)
    (w1 sg1 : ℚ × ℚ) (k2 : ℕ) (s : BState)
    (hw : w1.1 + w1.2 = 1) (hs : sg1.1 + sg1.2 = 1) :
    (∀ c' s', step_tail u it ofc conf1 nst st1 shp1 nm1 w1 sg1 k2 s = Except.ok (c', s') →
        s'.w.1 + s'.w.2 = 1 ∧ s'.sig_w.1 + s'.sig_w.2 = 1 ∧
        ∀ e ∈ s'.rc, e ∈ s.rc ∨ e.weights.1 + e.weights.2 = 1) ∧
    step_tail u it ofc conf1 nst st1 shp1 nm1 w1 sg1 k2 s ≠ Except.error Err.assertFail := by
  have hcond : (if u then sg1.1 + sg1.2 else w1.1 + w1.2) = 1 := by
    cases u <;> simpa
  have hev : ∀ e ∈ s.rc ++ [get_event_dict it s.current_model nm1 nst st1 conf1
      (if u then sg1 else w1)], e ∈ s.rc ∨ e.weights.1 + e.weights.2 = 1 := by
    intro e he
    rcases List.mem_append.mp he with h | h
    · exact Or.inl h
    · right
      have : e = get_event_dict it s.current_model nm1 nst st1 conf1 (if u then sg1 else w1) :=
        List.mem_singleton.mp h
      subst this
      unfold get_event_dict
      dsimp only
      cases u
      · simpa using hw
      · simpa using hs
  unfold step_tail
  rw [if_pos hcond]
  constructor
  · intro c' s' h
    dsimp only at h
    split at h
    · -- 0 < w1.2 ∧ w1.2 < 1 : blending branch
      split at h
      · exact absurd h (by simp)
      · split at h
        · -- completion
          simp only [Except.ok.injEq, Prod.mk.injEq] at h
          obtain ⟨hc, hs'⟩ := h
          subst hs'
          refine ⟨by norm_num [reset_weights], by norm_num [reset_weights], hev⟩
        · simp only [Except.ok.injEq, Prod.mk.injEq] at h
          obtain ⟨hc, hs'⟩ := h
          subst hs'
          exact ⟨update_weights_sum _ _ hw, sig_pair_sum _, hev⟩
    · -- steady branch
      simp only [Except.ok.injEq, Prod.mk.injEq] at h
      obtain ⟨hc, hs'⟩ := h
      subst hs'
      exact ⟨hw, hs, hev⟩
  · intro h
    dsimp only at h
    split at h
    · split at h
      · simp at h
      · split at h <;> simp at h
    · simp at h

theorem step_body_invariant (u : Bool) (nf : ℕ) (m : ℤ → Model) (fuel : ℕ)
    (rng : ℕ → ℚ) (it : ℕ) (conf : Conf) (s : BState)
    (h1 : s.w.1 + s.w.2 = 1) (h2 : s.sig_w.1 + s.sig_w.2 = 1) :
    (∀ c' s', step_body u nf m fuel rng it conf s = Except.ok (c', s') →
        s'.w.1 + s'.w.2 = 1 ∧ s'.sig_w.1 + s'.sig_w.2 = 1 ∧
        ∀ e ∈ s'.rc, e ∈ s.rc ∨ e.weights.1 + e.weights.2 = 1) ∧
    step_body u nf m fuel rng it conf s ≠ Except.error Err.assertFail := by
  have hreset : (reset_weights.1 + reset_weights.2 : ℚ) = 1 := by norm_num [reset_weights]
  unfold step_body
  dsimp only
  split
  · -- guard: no switch consulted
    norm_num [Switch.value]
    exact step_tail_invariant u it _ conf Switch.NONE s.switch_type s.switch_shp
      s.new_model s.w s.sig_w s.k s h1 h2
  · -- start_switch consulted
    rcases hss : start_switch it conf rng s.k with ⟨t, shp, c1, tgt, k'⟩
    dsimp only
    split
    · -- a switch starts
      cases tgt with
      | some tv =>
        dsimp only
        exact step_tail_invariant u it _ c1 t t shp (some (m tv))
          (update_weights reset_weights (shp_get shp t))
          (sig_pair (update_weights reset_weights (shp_get shp t)).1) k' s
          (update_weights_sum _ _ hreset) (sig_pair_sum _)
      | none =>
        dsimp only
        cases hg : get_new_model fuel s.current_model.id nf rng k' with
        | some r =>
          dsimp only
          exact step_tail_invariant u it _ c1 t t shp (some (m r.1))
            (update_weights reset_weights (shp_get shp t))
            (sig_pair (update_weights reset_weights (shp_get shp t)).1) r.2 s
            (update_weights_sum _ _ hreset) (sig_pair_sum _)
        | none => simp
    · -- no switch starts
      exact step_tail_invariant u it _ c1 t s.switch_type s.switch_shp
        s.new_model s.w s.sig_w k' s h1 h2

theorem step_invariant (u : Bool) (nf : ℕ) (m : ℤ → Model) (fuel : ℕ)
    (rng : ℕ → ℚ) (it : ℕ) (conf : Conf) (s : BState)
    (h1 : s.w.1 + s.w.2 = 1) (h2 : s.sig_w.1 + s.sig_w.2 = 1) :
    (∀ c' s', step u nf m fuel rng it conf s = Except.ok (c', s') →
        s'.w.1 + s'.w.2 = 1 ∧ s'.sig_w.1 + s'.sig_w.2 = 1 ∧
        ∀ e ∈ s'.rc, e ∈ s.rc ∨ e.weights.1 + e.weights.2 = 1) ∧
    step u nf m fuel rng it conf s ≠ Except.error Err.assertFail := by
  have hb := step_body_invariant u nf m fuel rng it conf s h1 h2
  unfold step
  cases hsb : step_body u nf m fuel rng it conf s with
  | ok p =>
    obtain ⟨hb1, _⟩ := hb
    obtain ⟨c0, s0⟩ := p
    have := hb1 c0 s0 hsb
    constructor
    · intro c' s' h
      simp only [Except.ok.injEq, Prod.mk.injEq] at h
      obtain ⟨hc, hs'⟩ := h
      subst hs'
      exact this
    · simp
  | error e =>
    constructor
    · intro c' s' h; simp at h
    · intro h
      simp only [Except.error.injEq] at h
      subst h
      exact hb.2 hsb

/-! ## C1 — weight conservation and the assert -/

theorem run_aux_conservation (u : Bool) (nf : ℕ) (m : ℤ → Model) (fuel : ℕ)
    (rng : ℕ → ℚ) :
    ∀ (n it : ℕ) (conf : Conf) (s : BState),
      s.w.1 + s.w.2 = 1 → s.sig_w.1 + s.sig_w.2 = 1 →
      (∀ e ∈ s.rc, e.weights.1 + e.weights.2 = 1) →
      (∀ c' s', run_aux u nf m fuel rng n it conf s = Except.ok (c', s') →
          ∀ e ∈ s'.rc, e.weights.1 + e.weights.2 = 1) ∧
      run_aux u nf m fuel rng n it conf s ≠ Except.error Err.assertFail := by
  intro n
  induction n with
  | zero =>
    intro it conf s _ _ h3
    constructor
    · intro c' s' h
      simp only [run_aux, Except.ok.injEq, Prod.mk.injEq] at h
      obtain ⟨_, hs'⟩ := h
      subst hs'
      exact h3
    · simp [run_aux]
  | succ n ih =>
    intro it conf s hw hs h3
    have hst := step_invariant u nf m fuel rng it conf s hw hs
    unfold run_aux
    cases hstep : step u nf m fuel rng it conf s with
    | ok p =>
      obtain ⟨c1, s1⟩ := p
      obtain ⟨hw1, hs1, hrc1⟩ := hst.1 c1 s1 hstep
      have h3' : ∀ e ∈ s1.rc, e.weights.1 + e.weights.2 = 1 := by
        intro e he
        rcases hrc1 e he with h | h
        · exact h3 e h
        · exact h
      exact ih (it + 1) c1 s1 hw1 hs1 h3'
    | error e =>
      constructor
      · intro c' s' h; simp at h
      · intro h
        simp only [Except.error.injEq] at h
        subst h
        exact hst.2 hstep

/-- C1: weight conservation.  (i) In every completed run, every recorded
event's weight pair — the sigmoid pair when `w_func = 'sig'`, the linear
pair otherwise — sums exactly to 1 (hence within any tolerance).  (ii) The
`assert` before the blend step can never fire: no run ever fails with
`Err.assertFail`. -/
theorem c1_weight_conservation :
    (∀ (conf : Conf) (models : ℤ → Model) (n_files fuel : ℕ) (rng : ℕ → ℚ)
        (conf' : Conf) (s' : BState),
        switching_process conf models n_files fuel rng = Except.ok (conf', s') →
        ∀ e ∈ s'.rc, e.weights.1 + e.weights.2 = 1) ∧
    (∀ (conf : Conf) (models : ℤ → Model) (n_files fuel : ℕ) (rng : ℕ → ℚ),
        switching_process conf models n_files fuel rng ≠ Except.error Err.assertFail) := by
  have hinit : ∀ models : ℤ → Model,
      (init_state models).w.1 + (init_state models).w.2 = 1 ∧
      (init_state models).sig_w.1 + (init_state models).sig_w.2 = 1 ∧
      (∀ e ∈ (init_state models).rc, e.weights.1 + e.weights.2 = 1) := by
    intro models
    refine ⟨by norm_num [init_state, reset_weights], by norm_num [init_state, reset_weights], ?_⟩
    intro e he
    simp [init_state] at he
  constructor
  · intro conf models nf fuel rng conf' s' h
    obtain ⟨hw, hs, hrc⟩ := hinit models
    exact (run_aux_conservation (conf.w_func == "sig") nf models fuel rng conf.periods 0 conf
      (init_state models) hw hs hrc).1 conf' s' h
  · intro conf models nf fuel rng
    obtain ⟨hw, hs, hrc⟩ := hinit models
    exact (run_aux_conservation (conf.w_func == "sig") nf models fuel rng conf.periods 0 conf
      (init_state models) hw hs hrc).2


/-! ## Shared concrete material for witnesses and counterexamples -/

/-- A concrete pool: model `i` has id `i` and forecasts the constant `i`. -/
def demo_models : ℤ → Model :=
  fun i => { id := i, lags := (1, 0, 1), inputTs := [1], forecastFn := fun _ => (i : ℚ) }

/-- A probabilistic-mode configuration with `p` periods, certain gradual
switching, linear blend, `min_model_len = 0`, gradual sharpness 1/2. -/
def lin_conf (p : ℕ) : Conf :=
  { periods := p, switching_probability := 1, abrupt_drift_prob := 0,
    gradual_drift_sharpness := 1/2, abrupt_drift_sharpness := 1,
    defined_drift_sharpness := none, min_model_len := 0, w_func := "lin",
    use_transition_map := false, transition_map := [] }

/-- The event every demo run records at period 0 (the dwell guard blocks
period 0, so the period-0 event is always the steady NONE event). -/
def demo_event0 : EventRec :=
  { n_row := 0, new_switch := Switch.NONE, cur_switch := Switch.NONE,
    cur_switch_dur := none, weights := (1, 0), current_model_id := 1, new_model_id := -1 }

/-- The loop state after period 0 of a demo run (steady, one forecast out). -/
def demo_s1 : BState :=
  { switch_type := Switch.NONE, current_model := demo_models 1, new_model := none,
    ts := [1], rc := [demo_event0], w := (1, 0), sig_w := (1, 0),
    state_counter := 1, switch_shp := (0, 0, none), k := 0 }

/-- Final state of a run, when it completed. -/
def run_final (r : Except Err (Conf × BState)) : Option BState :=
  r.toOption.map Prod.snd

/-- Final (threaded) configuration dictionary of a run, when it completed. -/
def run_conf (r : Except Err (Conf × BState)) : Option Conf :=
  r.toOption.map Prod.fst

/-- Witness for `c1_weight_conservation`: a completed 1-period run whose
single recorded event carries the weight pair `(1, 0)`. -/
theorem c1_weight_conservation_witness :
    demo_event0.weights.1 + demo_event0.weights.2 = 1 := by
  have h : switching_process (lin_conf 1) demo_models 3 1 (fun _ => 0) =
      Except.ok (lin_conf 1, demo_s1) := by with_unfolding_all rfl
  exact c1_weight_conservation.1 (lin_conf 1) demo_models 3 1 (fun _ => 0)
    (lin_conf 1) demo_s1 h demo_event0 (by simp [demo_s1])

/-! ## C3 — re-entrancy and minimum-dwell guard -/

/-- C3: whenever, at decision time, a blend is in progress
(`0 < w_new < 1`) or the dwell counter has not exceeded `min_model_len`,
the decision of that period is NONE: exactly one event is appended and it
records `new_switch = NONE` with the pre-existing active kind, and no
switch of any kind starts — the active kind and the incoming model are
never set during such a period (they can only be cleared by a completing
blend). -/
theorem c3_no_reentrant_switch_min_dwell (u : Bool) (nf : ℕ) (m : ℤ → Model)
    (fuel : ℕ) (rng : ℕ → ℚ) (it : ℕ) (conf : Conf) (s : BState)
    (hguard : (0 < s.w.2 ∧ s.w.2 < 1) ∨ s.state_counter ≤ conf.min_model_len) :
    ∀ c' s', step u nf m fuel rng it conf s = Except.ok (c', s') →
      s'.rc.length = s.rc.length + 1 ∧
      s'.rc.getLast?.map EventRec.new_switch = some Switch.NONE ∧
      s'.rc.getLast?.map EventRec.cur_switch = some s.switch_type ∧
      (s'.switch_type = s.switch_type ∨ s'.switch_type = Switch.NONE) ∧
      (s'.new_model = s.new_model ∨ s'.new_model = none) := by
  intro c' s' h
  unfold step at h
  rcases hb : step_body u nf m fuel rng it conf s with e | p
  · rw [hb] at h; exact absurd h (by simp)
  obtain ⟨c0, s0⟩ := p
  rw [hb] at h
  simp only [Except.ok.injEq, Prod.mk.injEq] at h
  obtain ⟨hc, hs'⟩ := h
  subst hs'
  -- the line-362 increment touches no relevant field, so it is enough to
  -- analyse `step_body`
  unfold step_body at hb
  rw [if_pos hguard] at hb
  dsimp only at hb
  norm_num [Switch.value] at hb
  unfold step_tail at hb
  dsimp only at hb
  repeat' split at hb
  any_goals exact Except.noConfusion hb
  all_goals
    simp only [Except.ok.injEq, Prod.mk.injEq] at hb
    obtain ⟨hbc, hbs⟩ := hb
    subst hbs
    refine ⟨by simp, ?_, ?_, ?_, ?_⟩ <;>
      simp_all [List.getLast?_concat, get_event_dict]

/-! ## C5 — completion monotonicity and reset -/

/-- Witness for `c3_no_reentrant_switch_min_dwell`: period 0 of a demo run,
where the dwell guard `state_counter <= min_model_len` holds (0 ≤ 0). -/
theorem c3_no_reentrant_switch_min_dwell_witness :
    demo_s1.rc.length = (init_state demo_models).rc.length + 1 ∧
    demo_s1.rc.getLast?.map EventRec.new_switch = some Switch.NONE ∧
    demo_s1.rc.getLast?.map EventRec.cur_switch = some (init_state demo_models).switch_type ∧
    (demo_s1.switch_type = (init_state demo_models).switch_type ∨
      demo_s1.switch_type = Switch.NONE) ∧
    (demo_s1.new_model = (init_state demo_models).new_model ∨ demo_s1.new_model = none) :=
  c3_no_reentrant_switch_min_dwell false 3 demo_models 1 (fun _ => 0) 0 (lin_conf 1)
    (init_state demo_models) (Or.inr (by norm_num [init_state, lin_conf]))
    (lin_conf 1) demo_s1 (by with_unfolding_all rfl)

/-- C5 (amended): (i) starting a switch with an effective sharpness below 1
puts the blend strictly in progress, so the completion logic of the blending
branch is reachable; (ii) in every blending period (`0 < w_new < 1` at entry)
the advanced `w_new` is non-decreasing, and either lands exactly on 1 or
advances by at least the 0.1 sharpness floor; when it lands on 1, the state
resets to STEADY *in that same period, before the end-of-period dwell
increment*: the incoming model becomes current, the incoming slot is
cleared, both weight pairs return to `(1, 0)`, the active kind returns to
NONE and the dwell counter is reset to 0; otherwise the blend simply
carries the advanced pair forward.  (For sharpness ≥ 1 part (i) fails and
the completion never executes — see the counterexample.) -/
theorem c5_amended_completion_monotonicity :
    (∀ sh : ℚ, sh < 1 →
      0 < (update_weights reset_weights sh).2 ∧ (update_weights reset_weights sh).2 < 1) ∧
    (∀ (u : Bool) (nf : ℕ) (m : ℤ → Model) (fuel : ℕ) (rng : ℕ → ℚ) (it : ℕ)
        (conf : Conf) (s : BState) (c' : Conf) (s' : BState),
      0 < s.w.2 → s.w.2 < 1 →
      step_body u nf m fuel rng it conf s = Except.ok (c', s') →
      (s.w.2 ≤ (update_weights s.w (shp_get s.switch_shp s.switch_type)).2 ∧
        ((update_weights s.w (shp_get s.switch_shp s.switch_type)).2 = 1 ∨
          s.w.2 + 1/10 ≤ (update_weights s.w (shp_get s.switch_shp s.switch_type)).2)) ∧
      ((update_weights s.w (shp_get s.switch_shp s.switch_type)).2 = 1 →
        s.new_model = some s'.current_model ∧ s'.new_model = none ∧
        s'.w = (1, 0) ∧ s'.sig_w = (1, 0) ∧ s'.switch_type = Switch.NONE ∧
        s'.state_counter = 0) ∧
      ((update_weights s.w (shp_get s.switch_shp s.switch_type)).2 ≠ 1 →
        s'.w = update_weights s.w (shp_get s.switch_shp s.switch_type) ∧
        s'.switch_type = s.switch_type ∧ s'.current_model = s.current_model ∧
        s'.new_model = s.new_model ∧ s'.state_counter = s.state_counter)) := by
  constructor
  · exact fun sh h => update_weights_reset_lt_one sh h
  · intro u nf m fuel rng it conf s c' s' h2 h3 hb
    have hguard : (0 < s.w.2 ∧ s.w.2 < 1) ∨ s.state_counter ≤ conf.min_model_len :=
      Or.inl ⟨h2, h3⟩
    refine ⟨⟨update_weights_snd_mono s.w _ (le_of_lt h3), ?_⟩, ?_⟩
    · rcases update_weights_snd_progress s.w (shp_get s.switch_shp s.switch_type) with h | h
      · exact Or.inl h
      · exact Or.inr (by linarith)
    unfold step_body at hb
    rw [if_pos hguard] at hb
    dsimp only at hb
    norm_num [Switch.value] at hb
    unfold step_tail at hb
    dsimp only at hb
    rw [if_pos (show (0 < s.w.2 ∧ s.w.2 < 1) from ⟨h2, h3⟩)] at hb
    repeat' split at hb
    any_goals exact Except.noConfusion hb
    all_goals
      simp only [Except.ok.injEq, Prod.mk.injEq] at hb
      obtain ⟨hbc, hbs⟩ := hb
      subst hbs
      simp_all [reset_weights]

/-! ## C2 — the concrete scenario -/

/-- Witness for `c5_amended_completion_monotonicity` at sharpness 1/2. -/
theorem c5_amended_completion_monotonicity_witness :
    0 < (update_weights reset_weights (1/2)).2 ∧ (update_weights reset_weights (1/2)).2 < 1 :=
  c5_amended_completion_monotonicity.1 (1/2) (by norm_num)

/-- The event log of a completed run. -/
def events_of (r : Except Err (Conf × BState)) : Option (List EventRec) :=
  (run_final r).map BState.rc

/-- Digest of the final loop state of a completed run. -/
structure RunDigest where
  w : ℚ × ℚ
  sig_w : ℚ × ℚ
  switch_type : Switch
  current_model_id : ℤ
  has_new_model : Bool
  ts_len : ℕ
  rc_len : ℕ
deriving DecidableEq, Repr

def state_digest (r : Except Err (Conf × BState)) : Option RunDigest :=
  (run_final r).map fun s =>
    ⟨s.w, s.sig_w, s.switch_type, s.current_model.id, s.new_model.isSome,
      s.ts.length, s.rc.length⟩

/-- Configuration for the C5 counterexample: gradual sharpness exactly 1. -/
def c5_cex_conf : Conf :=
  { periods := 2, switching_probability := 1, abrupt_drift_prob := 0,
    gradual_drift_sharpness := 1, abrupt_drift_sharpness := 1,
    defined_drift_sharpness := none, min_model_len := 0, w_func := "lin",
    use_transition_map := false, transition_map := [] }

/-- C5 counterexample: with gradual sharpness 1, the switch that starts at
period 1 drives `w_new` to exactly 1 already in the start-of-switch
advance; the period-1 event records weights `(0, 1)`, yet the run ends with
the active kind still GRADUAL, model 1 still current, the incoming model
still pending and `w = (0, 1)`: the state never resets to STEADY in the
period where `w_new` reached 1 (nor later — the blending branch that
performs the completion requires `0 < w_new < 1` and is skipped). -/
theorem c5_counterexample_sharpness_one_no_reset :
    events_of (switching_process c5_cex_conf demo_models 2 10 (fun _ => 1/2)) =
      some [{ n_row := 0, new_switch := Switch.NONE, cur_switch := Switch.NONE,
              cur_switch_dur := none, weights := (1, 0), current_model_id := 1,
              new_model_id := -1 },
            { n_row := 1, new_switch := Switch.GRADUAL, cur_switch := Switch.GRADUAL,
              cur_switch_dur := none, weights := (0, 1), current_model_id := 1,
              new_model_id := 2 }] ∧
    state_digest (switching_process c5_cex_conf demo_models 2 10 (fun _ => 1/2)) =
      some ⟨(0, 1), (0, 1), Switch.GRADUAL, 1, true, 2, 2⟩ := by
  constructor
  · exact of_decide_eq_true (by with_unfolding_all rfl)
  · exact of_decide_eq_true (by with_unfolding_all rfl)

/-- The uniform draws for the C2 scenario run. -/
def c2_rng : ℕ → ℚ := fun k => ([0, 0, 1/2, 0, 0, 5/6, 0, 0, 0, 0, 0, 1/2].getD k 0 : ℚ)

/-- C2 counterexample: in the scenario (3 models, 5 periods, certain
gradual switching, `min_model_len = 0`, sharpness 1/2, linear blend) the
period-0 decision is NONE, not GRADUAL — the dwell guard
`state_counter <= min_model_len` (0 ≤ 0) blocks period 0, so the first
switch can only start at period 1. -/
theorem c2_counterexample_no_switch_at_period_zero :
    (events_of (switching_process (lin_conf 5) demo_models 3 10 c2_rng)).map
        (fun l => l.map EventRec.new_switch) =
      some [Switch.NONE, Switch.GRADUAL, Switch.GRADUAL, Switch.GRADUAL, Switch.GRADUAL] ∧
    Switch.NONE ≠ Switch.GRADUAL := by
  constructor
  · exact of_decide_eq_true (by with_unfolding_all rfl)
  · decide

/-- C2 (amended): in the scenario, the GRADUAL switch starts at period 1
(not 0), and — because every steady period draws a new switch with
probability 1 and each blend completes within its starting period — again
at periods 2, 3 and 4.  Weights evolve `(1,0) → (0.5,0.5) → (0,1)` inside
each switching period, so the log records `(1,0)` at period 0 and
`(0.5,0.5)` at periods 1-4; output series and event log have length 5;
the current model changes at the end of each of the four switching periods
(three changes visible between consecutive log entries), ending at model 2
for this run's draws. -/
theorem c2_amended_scenario :
    events_of (switching_process (lin_conf 5) demo_models 3 10 c2_rng) =
      some [{ n_row := 0, new_switch := Switch.NONE, cur_switch := Switch.NONE,
              cur_switch_dur := none, weights := (1, 0), current_model_id := 1,
              new_model_id := -1 },
            { n_row := 1, new_switch := Switch.GRADUAL, cur_switch := Switch.GRADUAL,
              cur_switch_dur := none, weights := (1/2, 1/2), current_model_id := 1,
              new_model_id := 2 },
            { n_row := 2, new_switch := Switch.GRADUAL, cur_switch := Switch.GRADUAL,
              cur_switch_dur := none, weights := (1/2, 1/2), current_model_id := 2,
              new_model_id := 3 },
            { n_row := 3, new_switch := Switch.GRADUAL, cur_switch := Switch.GRADUAL,
              cur_switch_dur := none, weights := (1/2, 1/2), current_model_id := 3,
              new_model_id := 1 },
            { n_row := 4, new_switch := Switch.GRADUAL, cur_switch := Switch.GRADUAL,
              cur_switch_dur := none, weights := (1/2, 1/2), current_model_id := 1,
              new_model_id := 2 }] ∧
    state_digest (switching_process (lin_conf 5) demo_models 3 10 c2_rng) =
      some ⟨(1, 0), (1, 0), Switch.NONE, 2, false, 5, 5⟩ := by
  constructor
  · exact of_decide_eq_true (by with_unfolding_all rfl)
  · exact of_decide_eq_true (by with_unfolding_all rfl)


/-! ## C4 — transition-map fidelity -/

/-- Transition-map configuration for C4: one entry `(10, 4, 3)`. -/
def c4_conf : Conf :=
  { periods := 15, switching_probability := 1, abrupt_drift_prob := 0,
    gradual_drift_sharpness := 1/2, abrupt_drift_sharpness := 1,
    defined_drift_sharpness := none, min_model_len := 0, w_func := "lin",
    use_transition_map := true, transition_map := [(10, 4, 3)] }

/-- C4: transition-map fidelity.  (i) With the map enabled and a single
entry `(it, duration, target)`, consulting `start_switch` at period `it`
returns PREDEFINED with sharpness `100/(duration+1)/100` and the mapped
target, consuming no random draws; (ii) at any other period it returns
NONE; (iii) concretely for the entry `(10, 4, 3)` over 15 periods:
periods 0-9 are steady, the PREDEFINED switch starts at period 10
targeting model 3 with recorded weights `(4/5, 1/5)`, the blend advances by
1/5 each period and completes (`w_new = 1`) during period 13, so period 14
is steady again with model 3 current — complete by period 14 as claimed. -/
theorem c4_transition_map_fidelity :
    (∀ (conf : Conf) (rng : ℕ → ℚ) (k : ℕ) (it len : ℕ) (to_mdl : ℤ),
      conf.use_transition_map = true → conf.transition_map = [(it, len, to_mdl)] →
      start_switch it conf rng k =
        (Switch.PREDEFINED,
          (conf.gradual_drift_sharpness, conf.abrupt_drift_sharpness,
            some (100 / ((len : ℚ) + 1) / 100)),
          { conf with defined_drift_sharpness := some (100 / ((len : ℚ) + 1) / 100) },
          some to_mdl, k)) ∧
    (∀ (conf : Conf) (rng : ℕ → ℚ) (k counter : ℕ),
      conf.use_transition_map = true → conf.transition_map = [(10, 4, 3)] →
      counter ≠ 10 → (start_switch counter conf rng k).1 = Switch.NONE) ∧
    (events_of (switching_process c4_conf demo_models 3 10 (fun _ => 0)) =
      some [
            { n_row := 0, new_switch := Switch.NONE, cur_switch := Switch.NONE,
              cur_switch_dur := none, weights := (1, 0), current_model_id := 1,
              new_model_id := -1 },
            { n_row := 1, new_switch := Switch.NONE, cur_switch := Switch.NONE,
              cur_switch_dur := none, weights := (1, 0), current_model_id := 1,
              new_model_id := -1 },
            { n_row := 2, new_switch := Switch.NONE, cur_switch := Switch.NONE,
              cur_switch_dur := none, weights := (1, 0), current_model_id := 1,
              new_model_id := -1 },
            { n_row := 3, new_switch := Switch.NONE, cur_switch := Switch.NONE,
              cur_switch_dur := none, weights := (1, 0), current_model_id := 1,
              new_model_id := -1 },
            { n_row := 4, new_switch := Switch.NONE, cur_switch := Switch.NONE,
              cur_switch_dur := none, weights := (1, 0), current_model_id := 1,
              new_model_id := -1 },
            { n_row := 5, new_switch := Switch.NONE, cur_switch := Switch.NONE,
              cur_switch_dur := none, weights := (1, 0), current_model_id := 1,
              new_model_id := -1 },
            { n_row := 6, new_switch := Switch.NONE, cur_switch := Switch.NONE,
              cur_switch_dur := none, weights := (1, 0), current_model_id := 1,
              new_model_id := -1 },
            { n_row := 7, new_switch := Switch.NONE, cur_switch := Switch.NONE,
              cur_switch_dur := none, weights := (1, 0), current_model_id := 1,
              new_model_id := -1 },
            { n_row := 8, new_switch := Switch.NONE, cur_switch := Switch.NONE,
              cur_switch_dur := none, weights := (1, 0), current_model_id := 1,
              new_model_id := -1 },
            { n_row := 9, new_switch := Switch.NONE, cur_switch := Switch.NONE,
              cur_switch_dur := none, weights := (1, 0), current_model_id := 1,
              new_model_id := -1 },
            { n_row := 10, new_switch := Switch.PREDEFINED, cur_switch := Switch.PREDEFINED,
              cur_switch_dur := some 4, weights := (4/5, 1/5), current_model_id := 1,
              new_model_id := 3 },
            { n_row := 11, new_switch := Switch.NONE, cur_switch := Switch.PREDEFINED,
              cur_switch_dur := some 4, weights := (3/5, 2/5), current_model_id := 1,
              new_model_id := 3 },
            { n_row := 12, new_switch := Switch.NONE, cur_switch := Switch.PREDEFINED,
              cur_switch_dur := some 4, weights := (2/5, 3/5), current_model_id := 1,
              new_model_id := 3 },
            { n_row := 13, new_switch := Switch.NONE, cur_switch := Switch.PREDEFINED,
              cur_switch_dur := some 4, weights := (1/5, 4/5), current_model_id := 1,
              new_model_id := 3 },
            { n_row := 14, new_switch := Switch.NONE, cur_switch := Switch.NONE,
              cur_switch_dur := none, weights := (1, 0), current_model_id := 3,
              new_model_id := -1 }] ∧
      state_digest (switching_process c4_conf demo_models 3 10 (fun _ => 0)) =
      some ⟨(1, 0), (1, 0), Switch.NONE, 3, false, 15, 15⟩) := by
  refine ⟨?_, ?_, ?_, ?_⟩
  · intro conf rng k it len to_mdl huse hmap
    unfold start_switch
    dsimp only
    rw [show ({ conf with defined_drift_sharpness := none } : Conf).use_transition_map =
      conf.use_transition_map from rfl, huse]
    simp only [if_true]
    rw [show ({ conf with defined_drift_sharpness := none } : Conf).transition_map =
      conf.transition_map from rfl, hmap]
    unfold start_switch_scan
    simp
  · intro conf rng k counter huse hmap hne
    unfold start_switch
    dsimp only
    rw [show ({ conf with defined_drift_sharpness := none } : Conf).use_transition_map =
      conf.use_transition_map from rfl, huse]
    simp only [if_true]
    rw [show ({ conf with defined_drift_sharpness := none } : Conf).transition_map =
      conf.transition_map from rfl, hmap]
    unfold start_switch_scan
    rw [if_neg hne]
    split
    · rfl
    · unfold start_switch_scan
      rfl
  · exact of_decide_eq_true (by with_unfolding_all rfl)
  · exact of_decide_eq_true (by with_unfolding_all rfl)

/-- Witness for `c4_transition_map_fidelity`, instantiating the map-entry
clause at the concrete configuration and period 10. -/
theorem c4_transition_map_fidelity_witness :
    start_switch 10 c4_conf (fun _ => 0) 0 =
      (Switch.PREDEFINED,
        (c4_conf.gradual_drift_sharpness, c4_conf.abrupt_drift_sharpness,
          some (100 / (((4 : ℕ) : ℚ) + 1) / 100)),
        { c4_conf with defined_drift_sharpness := some (100 / (((4 : ℕ) : ℚ) + 1) / 100) },
        some 3, 0) :=
  c4_transition_map_fidelity.1 c4_conf (fun _ => 0) 0 10 4 3 rfl rfl


/-! ## C8 — pool of size one under probabilistic switching -/

/-- If the decision guard lets `start_switch` run, the scheduler starts a
switch in probabilistic mode (no explicit target), and `get_new_model`
never returns within the granted recursion depth, the whole iteration dies
with `noFuel`. -/
theorem step_noFuel_of_get_new_model_none (u : Bool) (nf : ℕ) (m : ℤ → Model)
    (fuel : ℕ) (rng : ℕ → ℚ) (it : ℕ) (conf : Conf) (s : BState)
    (hg : ¬((0 < s.w.2 ∧ s.w.2 < 1) ∨ s.state_counter ≤ conf.min_model_len))
    (t : Switch) (shp : ℚ × ℚ × Option ℚ) (c1 : Conf) (k' : ℕ)
    (hss : start_switch it conf rng s.k = (t, shp, c1, none, k'))
    (ht : 0 ≤ t.value)
    (hgnm : get_new_model fuel s.current_model.id nf rng k' = none) :
    step u nf m fuel rng it conf s = Except.error Err.noFuel := by
  unfold step step_body
  dsimp only
  rw [if_neg hg, hss]
  dsimp only
  rw [if_pos ht, hgnm]

/-- C8: with a pool of exactly one model under probabilistic switching,
(i) `get_new_model` never returns, whatever recursion depth is granted,
and (ii) a concrete 2-period run with certain switching reaches the
selection at period 1 and dies inside `get_new_model` for every amount of
fuel — no pre-run pool-size check detects the configuration error before
the per-period loop starts. -/
theorem c8_pool_of_one_selection_never_terminates :
    (∀ (fuel : ℕ) (rng : ℕ → ℚ) (k : ℕ), (∀ j, 0 ≤ rng j ∧ rng j < 1) →
      get_new_model fuel 1 1 rng k = none) ∧
    (∀ fuel : ℕ, switching_process (lin_conf 2) demo_models 1 fuel (fun _ => 0) =
      Except.error Err.noFuel) := by
  constructor
  · intro fuel rng k hv
    exact get_new_model_pool_one_diverges rng hv fuel k
  · intro fuel
    have hg : ∀ k, get_new_model fuel 1 1 (fun _ => 0) k = none :=
      get_new_model_pool_one_diverges (fun _ => 0) (fun _ => by norm_num) fuel
    have h1 : switching_process (lin_conf 2) demo_models 1 fuel (fun _ => 0) =
        run_aux false 1 demo_models fuel (fun _ => 0) 1 1 (lin_conf 2) demo_s1 := by
      with_unfolding_all rfl
    have h2 : step false 1 demo_models fuel (fun _ => 0) 1 (lin_conf 2) demo_s1 =
        Except.error Err.noFuel := by
      refine step_noFuel_of_get_new_model_none false 1 demo_models fuel (fun _ => 0) 1
        (lin_conf 2) demo_s1 (by norm_num [demo_s1, lin_conf]) Switch.GRADUAL
        ((1 : ℚ)/2, (1 : ℚ), (none : Option ℚ)) (lin_conf 2) 2 ?_ (by decide) (hg 2)
      with_unfolding_all rfl
    have h3 : run_aux false 1 demo_models fuel (fun _ => 0) 1 1 (lin_conf 2) demo_s1 =
        (match step false 1 demo_models fuel (fun _ => 0) 1 (lin_conf 2) demo_s1 with
          | Except.ok (conf', s') =>
            run_aux false 1 demo_models fuel (fun _ => 0) 0 2 conf' s'
          | Except.error e => Except.error e) := by
      with_unfolding_all rfl
    rw [h1, h3, h2]

/-- Witness for `c8_pool_of_one_selection_never_terminates`: fuel 5,
the all-zero draw stream. -/
theorem c8_pool_of_one_selection_never_terminates_witness :
    get_new_model 5 1 1 (fun _ => 0) 0 = none :=
  c8_pool_of_one_selection_never_terminates.1 5 (fun _ => 0) 0 (fun _ => by norm_num)


/-! ## C9 — mutation of the configuration dictionary -/

/-- The transition-map scan changes no configuration field other than
`defined_drift_sharpness`. -/
theorem start_switch_scan_conf_frame (counter : ℕ) (conf : Conf) (v : Option ℚ) :
    ∀ l : List (ℕ × ℕ × ℤ),
      { (start_switch_scan counter conf l).2.2.1 with defined_drift_sharpness := v } =
        { conf with defined_drift_sharpness := v } := by
  intro l
  induction l with
  | nil => rfl
  | cons hd tl ih =>
    obtain ⟨it, len, to_mdl⟩ := hd
    unfold start_switch_scan
    split_ifs <;> first | rfl | exact ih

/-- `start_switch` changes no configuration field other than
`defined_drift_sharpness`. -/
theorem start_switch_conf_frame (counter : ℕ) (conf : Conf) (rng : ℕ → ℚ) (k : ℕ)
    (v : Option ℚ) :
    { (start_switch counter conf rng k).2.2.1 with defined_drift_sharpness := v } =
      { conf with defined_drift_sharpness := v } := by
  unfold start_switch
  dsimp only
  split
  · exact start_switch_scan_conf_frame counter _ v _
  · rfl

/-- `step_tail` returns the configuration it was given. -/
theorem step_tail_conf (u : Bool) (it : ℕ) (ofc : ℚ) (conf1 : Conf)
    (nst st1 : Switch) (shp1 : ℚ × ℚ × Option ℚ) (nm1 : Option Model)
    (w1 sg1 : ℚ × ℚ) (k2 : ℕ) (s : BState) :
    ∀ c' s', step_tail u it ofc conf1 nst st1 shp1 nm1 w1 sg1 k2 s = Except.ok (c', s') →
      c' = conf1 := by
  intro c' s' h
  unfold step_tail at h
  dsimp only at h
  repeat' split at h
  all_goals try exact Except.noConfusion h
  all_goals
    simp only [Except.ok.injEq, Prod.mk.injEq] at h
    exact h.1.symm

/-- One loop iteration changes no configuration field other than
`defined_drift_sharpness`. -/
theorem step_conf_frame (u : Bool) (nf : ℕ) (m : ℤ → Model) (fuel : ℕ)
    (rng : ℕ → ℚ) (it : ℕ) (conf : Conf) (s : BState) :
    ∀ c' s' (v : Option ℚ), step u nf m fuel rng it conf s = Except.ok (c', s') →
      { c' with defined_drift_sharpness := v } =
        { conf with defined_drift_sharpness := v } := by
  intro c' s' v h
  unfold step at h
  rcases hb : step_body u nf m fuel rng it conf s with e | p
  · rw [hb] at h; exact absurd h (by simp)
  obtain ⟨c0, s0⟩ := p
  rw [hb] at h
  simp only [Except.ok.injEq, Prod.mk.injEq] at h
  obtain ⟨hc, _⟩ := h
  subst hc
  unfold step_body at hb
  dsimp only at hb
  split at hb
  · -- guard branch: the tail is called on `conf` itself
    norm_num [Switch.value] at hb
    rw [step_tail_conf _ _ _ _ _ _ _ _ _ _ _ _ _ _ hb]
  · -- start_switch branch
    rcases hss : start_switch it conf rng s.k with ⟨t, shp, c1, tgt, k'⟩
    rw [hss] at hb
    dsimp only at hb
    have hc1 : { c1 with defined_drift_sharpness := v } =
        { conf with defined_drift_sharpness := v } := by
      have := start_switch_conf_frame it conf rng s.k v
      rw [hss] at this
      exact this
    split at hb
    · cases tgt with
      | some tv =>
        dsimp only at hb
        rw [step_tail_conf _ _ _ _ _ _ _ _ _ _ _ _ _ _ hb]
        exact hc1
      | none =>
        dsimp only at hb
        rcases hgn : get_new_model fuel s.current_model.id nf rng k' with _ | r
        · rw [hgn] at hb; exact absurd hb (by simp)
        · rw [hgn] at hb
          dsimp only at hb
          rw [step_tail_conf _ _ _ _ _ _ _ _ _ _ _ _ _ _ hb]
          exact hc1
    · rw [step_tail_conf _ _ _ _ _ _ _ _ _ _ _ _ _ _ hb]
      exact hc1

/-- A whole run changes no configuration field other than
`defined_drift_sharpness`. -/
theorem run_aux_conf_frame (u : Bool) (nf : ℕ) (m : ℤ → Model) (fuel : ℕ)
    (rng : ℕ → ℚ) :
    ∀ (n it : ℕ) (conf : Conf) (s : BState) (c' : Conf) (s' : BState) (v : Option ℚ),
      run_aux u nf m fuel rng n it conf s = Except.ok (c', s') →
      { c' with defined_drift_sharpness := v } =
        { conf with defined_drift_sharpness := v } := by
  intro n
  induction n with
  | zero =>
    intro it conf s c' s' v h
    simp only [run_aux, Except.ok.injEq, Prod.mk.injEq] at h
    rw [h.1]
  | succ n ih =>
    intro it conf s c' s' v h
    unfold run_aux at h
    rcases hstep : step u nf m fuel rng it conf s with e | p
    · rw [hstep] at h; exact absurd h (by simp)
    obtain ⟨c1, s1⟩ := p
    rw [hstep] at h
    calc { c' with defined_drift_sharpness := v }
        = { c1 with defined_drift_sharpness := v } := ih (it + 1) c1 s1 c' s' v h
      _ = { conf with defined_drift_sharpness := v } :=
          step_conf_frame u nf m fuel rng it conf s c1 s1 v hstep

/-- Configuration for the C9 counterexample, carrying a pre-existing value
under the key `defined_drift_sharpness`. -/
def c9_cex_conf : Conf :=
  { periods := 2, switching_probability := 1, abrupt_drift_prob := 0,
    gradual_drift_sharpness := 1/2, abrupt_drift_sharpness := 1,
    defined_drift_sharpness := some 7, min_model_len := 0, w_func := "lin",
    use_transition_map := false, transition_map := [] }

/-- C9 counterexample: the configuration is *not* read-only to the core.
As soon as the scheduler is consulted, `start_switch` overwrites the key
`defined_drift_sharpness` (line 241 sets it to None); after a 2-period run
the threaded configuration differs from the one passed in. -/
theorem c9_counterexample_conf_key_overwritten :
    run_conf (switching_process c9_cex_conf demo_models 3 10 (fun _ => 1/2)) =
      some { c9_cex_conf with defined_drift_sharpness := none } ∧
    ({ c9_cex_conf with defined_drift_sharpness := none } : Conf) ≠ c9_cex_conf := by
  constructor
  · exact of_decide_eq_true (by with_unfolding_all rfl)
  · intro h
    have h' := congrArg Conf.defined_drift_sharpness h
    simp [c9_cex_conf] at h'

/-- C9 (amended): `defined_drift_sharpness` is the *only* key of the
configuration the switching core writes: overwriting that single field
with any common value makes (i) the configuration returned by any
`start_switch` call and (ii) the configuration threaded through any
completed run agree with the configuration passed in. -/
theorem c9_amended_conf_frame :
    (∀ (counter : ℕ) (conf : Conf) (rng : ℕ → ℚ) (k : ℕ) (v : Option ℚ),
      { (start_switch counter conf rng k).2.2.1 with defined_drift_sharpness := v } =
        { conf with defined_drift_sharpness := v }) ∧
    (∀ (conf : Conf) (models : ℤ → Model) (n_files fuel : ℕ) (rng : ℕ → ℚ)
        (conf' : Conf) (s' : BState),
      switching_process conf models n_files fuel rng = Except.ok (conf', s') →
      { conf' with defined_drift_sharpness := conf.defined_drift_sharpness } = conf) := by
  constructor
  · exact fun counter conf rng k v => start_switch_conf_frame counter conf rng k v
  · intro conf models nf fuel rng conf' s' h
    exact run_aux_conf_frame (conf.w_func == "sig") nf models fuel rng conf.periods 0
      conf (init_state models) conf' s' conf.defined_drift_sharpness h

/-- Final loop state of the 2-period C9 counterexample run. -/
def c9_final : BState :=
  { switch_type := Switch.NONE, current_model := demo_models 2, new_model := none,
    ts := [1, 3/2],
    rc := [demo_event0,
           { n_row := 1, new_switch := Switch.GRADUAL, cur_switch := Switch.GRADUAL,
             cur_switch_dur := none, weights := (1/2, 1/2), current_model_id := 1,
             new_model_id := 2 }],
    w := (1, 0), sig_w := (1, 0), state_counter := 1, switch_shp := (1/2, 1, none), k := 3 }

/-- Witness for `c9_amended_conf_frame`: the 2-period counterexample run,
whose returned configuration matches the input one after the single
overwritten key is restored. -/
theorem c9_amended_conf_frame_witness :
    ({ ({ c9_cex_conf with defined_drift_sharpness := none } : Conf) with
        defined_drift_sharpness := c9_cex_conf.defined_drift_sharpness } : Conf) = c9_cex_conf := by
  have h : switching_process c9_cex_conf demo_models 3 10 (fun _ => 1/2) =
      Except.ok ({ c9_cex_conf with defined_drift_sharpness := none }, c9_final) := by
    with_unfolding_all rfl
  exact c9_amended_conf_frame.2 c9_cex_conf demo_models 3 10 (fun _ => 1/2)
    { c9_cex_conf with defined_drift_sharpness := none } c9_final h

/-! ## C10 — the initial state of every run -/

/-- C10: every run starts in STEADY state: the current model is the pool
entry of key 1 (so, on a well-formed pool, its id is 1), there is no
incoming model, both weight pairs are `(1, 0)`, the active switch kind is
NONE, the dwell counter is 0 and both outputs are empty — `init_state`
does not depend on the configuration, and `switching_process` is exactly
the per-period loop started from `init_state`. -/
theorem c10_initial_state :
    ∀ (models : ℤ → Model) (conf : Conf) (n_files fuel : ℕ) (rng : ℕ → ℚ),
      (models 1).id = 1 →
      (init_state models).switch_type = Switch.NONE ∧
      (init_state models).current_model = models 1 ∧
      (init_state models).current_model.id = 1 ∧
      (init_state models).new_model = none ∧
      (init_state models).w = (1, 0) ∧
      (init_state models).sig_w = (1, 0) ∧
      (init_state models).state_counter = 0 ∧
      (init_state models).ts = [] ∧
      (init_state models).rc = [] ∧
      switching_process conf models n_files fuel rng =
        run_aux (conf.w_func == "sig") n_files models fuel rng conf.periods 0 conf
          (init_state models) :=
  fun _ _ _ _ _ h => ⟨rfl, rfl, h, rfl, rfl, rfl, rfl, rfl, rfl, rfl⟩

/-- Witness for `c10_initial_state` on the demo pool. -/
theorem c10_initial_state_witness :
    (init_state demo_models).switch_type = Switch.NONE ∧
    (init_state demo_models).current_model = demo_models 1 ∧
    (init_state demo_models).current_model.id = 1 ∧
    (init_state demo_models).new_model = none ∧
    (init_state demo_models).w = (1, 0) ∧
    (init_state demo_models).sig_w = (1, 0) ∧
    (init_state demo_models).state_counter = 0 ∧
    (init_state demo_models).ts = [] ∧
    (init_state demo_models).rc = [] ∧
    switching_process (lin_conf 1) demo_models 3 1 (fun _ => 0) =
      run_aux ((lin_conf 1).w_func == "sig") 3 demo_models 1 (fun _ => 0)
        (lin_conf 1).periods 0 (lin_conf 1) (init_state demo_models) :=
  c10_initial_state demo_models (lin_conf 1) 3 1 (fun _ => 0) rfl

end RegimeGen
